import Mathlib

/-!
# Verification of the Nectix payment backend core

Shallow embedding of `src/dist/routes.js`: the bounded retry executor
`retryWithBackoff`, the zod validation schema `createPaymentSchema`, the
route handlers for `POST /api/payments/criar-pagamento`,
`POST /api/payments/webhook` and `GET /api/payments/status/:id`, and the
fulfillment helpers `processApprovedPayment` and `getDownloadLinks`.

External collaborators (the Mercado Pago client and the Supabase client)
are modelled as oracles passed to the handlers: the payment client's
`create`/`get` calls are attempt-indexed functions `Nat → Except String _`
(attempt `i` yields the result of the `i`-th invocation), and the
database is an explicit row-list state together with outcome oracles for
the fallible writes.  JavaScript numbers are modelled as `ℚ`; thrown
JavaScript exceptions are explicit `Except`/outcome constructors.
-/

namespace Nectix

/-- Result of one run of the retry loop in `retryWithBackoff`
(`src/dist/routes.js` lines 10-22): either the wrapped operation's success
value, the error thrown by the operation's final attempt (rethrown by
`throw error` when `i === maxRetries - 1`), or the unreachable trailing
`throw new Error("Max retries exceeded")` after the loop. -/
inductive RetryOutcome (ε α : Type) where
  | ok (a : α)
  | opFailure (e : ε)
  | maxRetriesExceeded
deriving Repr, DecidableEq

/-- Observable trace of a `retryWithBackoff` run: outcome, number of
invocations of the wrapped operation, and the total delay waited in the
`setTimeout` calls. -/
structure RetryTrace (ε α : Type) where
  outcome : RetryOutcome ε α
  calls : Nat
  waited : Nat
deriving Repr, DecidableEq

/-- The `for (let i = 0; i < maxRetries; i++)` loop of `retryWithBackoff`,
at iteration `i` with `waited` time-units already spent waiting.  The
structural argument `remaining = maxRetries - i` counts the iterations
the guard `i < maxRetries` still allows, so `remaining = 0` is the loop
exit (falling through to `throw new Error("Max retries exceeded")`).  On
failure at a non-final attempt the loop waits `delay * (i + 1)` and
retries; on failure at attempt `maxRetries - 1` it rethrows that
failure. -/
def retryGo (f : Nat → Except ε α) (delay maxRetries : Nat) :
    Nat → Nat → Nat → RetryTrace ε α
  | 0, i, waited => ⟨.maxRetriesExceeded, i, waited⟩
  | remaining + 1, i, waited =>
    match f i with
    | .ok a => ⟨.ok a, i + 1, waited⟩
    | .error e =>
      if i = maxRetries - 1 then ⟨.opFailure e, i + 1, waited⟩
      else retryGo f delay maxRetries remaining (i + 1) (waited + delay * (i + 1))

/-- `retryWithBackoff(fn, maxRetries, delay)` from `src/dist/routes.js`
lines 10-22, as a trace-producing function of the attempt-indexed
operation `f`. -/
def retryWithBackoff (f : Nat → Except ε α) (maxRetries delay : Nat) :
    RetryTrace ε α :=
  retryGo f delay maxRetries maxRetries 0 0

/-- C1: Behaviour of the retry executor at max attempts = 3, base
delay `d`.  (1) If the operation fails on its first two invocations and
succeeds on the third, the executor returns that success after 3 calls,
having waited `d*1 + d*2`.  (2) If the operation fails on every
invocation, the executor calls it exactly 3 times, propagates the failure
of the last attempt, and the total waited delay is `d*1 + d*2` (it waits
`d × attempt_number` after each failed non-final attempt and not after the
final one). -/
theorem retryWithBackoff_three_attempts (f g : Nat → Except ε α) (d : Nat)
    (e₀ e₁ : ε) (a : α) (err : Nat → ε)
    (hf0 : f 0 = .error e₀) (hf1 : f 1 = .error e₁) (hf2 : f 2 = .ok a)
    (hg : ∀ i, g i = .error (err i)) :
    retryWithBackoff f 3 d = ⟨.ok a, 3, d * 1 + d * 2⟩ ∧
    retryWithBackoff g 3 d = ⟨.opFailure (err 2), 3, d * 1 + d * 2⟩ := by
  constructor
  · show retryGo f d 3 3 0 0 = _
    simp [retryGo, hf0, hf1, hf2, RetryTrace.mk.injEq]
  · show retryGo g d 3 3 0 0 = _
    simp [retryGo, hg 0, hg 1, hg 2, RetryTrace.mk.injEq]

/-- Witness for `retryWithBackoff_three_attempts` at concrete operations
over `ε := String`, `α := Nat`, `d := 1000`. -/
theorem retryWithBackoff_three_attempts_witness :
    retryWithBackoff
        (fun i => if i < 2 then Except.error "netfail" else Except.ok 7)
        3 1000 = ⟨.ok 7, 3, 1000 * 1 + 1000 * 2⟩ ∧
    retryWithBackoff (fun _ => (Except.error "down" : Except String Nat))
        3 1000 = ⟨.opFailure "down", 3, 1000 * 1 + 1000 * 2⟩ := by
  have h := retryWithBackoff_three_attempts
    (fun i => if i < 2 then Except.error "netfail" else Except.ok 7)
    (fun _ => (Except.error "down" : Except String Nat)) 1000
    "netfail" "netfail" 7 (fun _ => "down")
    rfl rfl rfl (fun _ => rfl)
  exact h

/-! ## Data model -/

/-- A cart-item / product identifier: `id: z.union([z.string(), z.number()])`
(`createPaymentSchema`, line 38). -/
inductive ItemId where
  | str (s : String)
  | num (n : Int)
deriving Repr, DecidableEq

/-- The optional `variacoes` object of a cart item (lines 49-52). -/
structure Variacoes where
  cor : Option String
  tamanho : Option String
deriving Repr, DecidableEq

/-- `item.variacoes || {}`: the empty-object default used throughout the
source when a cart item has no variations. -/
def orEmptyVariacoes (v : Option Variacoes) : Variacoes :=
  v.getD ⟨none, none⟩

/-- A JSON value accepted by `z.union([z.number(), z.string()])`: the raw
form of the `price` and `total` fields before numeric coercion. -/
inductive NumOrStr where
  | num (x : ℚ)
  | str (s : String)
deriving Repr, DecidableEq

/-- Numeric value of a digit list, most significant first. -/
def digitsVal (ds : List Char) : Nat :=
  ds.foldl (fun a c => a * 10 + (c.toNat - 48)) 0

/-- Model of JavaScript `parseFloat` on decimal literals: an optional sign
followed by the longest prefix of digits with at most one decimal point;
`none` models `NaN` (no numeric prefix, e.g. a non-numeric string).
Exponents, `Infinity` and leading whitespace are outside the model. -/
def jsParseFloat (s : String) : Option ℚ :=
  let signed : Bool × List Char :=
    match s.toList with
    | '-' :: rest => (true, rest)
    | '+' :: rest => (false, rest)
    | cs => (false, cs)
  let intPart := signed.2.takeWhile Char.isDigit
  let rest := signed.2.dropWhile Char.isDigit
  let fracPart :=
    match rest with
    | '.' :: r => r.takeWhile Char.isDigit
    | _ => []
  if intPart.isEmpty && fracPart.isEmpty then none
  else
    let mag : ℚ :=
      (digitsVal intPart : ℚ) + (digitsVal fracPart : ℚ) / (10 : ℚ) ^ fracPart.length
    some (if signed.1 then -mag else mag)

/-- `typeof val === 'string' ? parseFloat(val) : val` — the coercion shared
by the `price` and `total` transforms (lines 43, 59); `none` is `NaN`. -/
def coerceNum : NumOrStr → Option ℚ
  | .num x => some x
  | .str s => jsParseFloat s

/-- The shipping address of `enderecoSchema` (lines 25-33); `complemento`
is the only optional field. -/
structure Endereco where
  cep : String
  rua : String
  numero : String
  complemento : Option String
  bairro : String
  cidade : String
  estado : String
deriving Repr, DecidableEq

/-- `endereco.complemento || null` (line 219): JavaScript `||` maps both a
missing and an empty-string complement to `null`. -/
def complementoOrNull (c : Option String) : Option String :=
  match c with
  | some s => if s.isEmpty then none else some s
  | none => none

/-- A raw `carrinho` entry as it arrives in the request body, with the
JSON types the schema accepts (lines 37-53). -/
structure RawCartItem where
  id : ItemId
  name : String
  price : Option NumOrStr
  quantity : ℚ
  variacoes : Option Variacoes
deriving Repr, DecidableEq

/-- A raw request body for `POST /api/payments/criar-pagamento`, with the
JSON field types `createPaymentSchema` accepts (lines 36-65). -/
structure RawPaymentRequest where
  carrinho : List RawCartItem
  nomeCliente : String
  email : String
  telefone : String
  endereco : Endereco
  total : NumOrStr
deriving Repr, DecidableEq

/-- A `carrinho` entry after validation: `price` coerced to a number when
present. -/
structure CartItem where
  id : ItemId
  name : String
  price : Option ℚ
  quantity : ℚ
  variacoes : Option Variacoes
deriving Repr, DecidableEq

/-- `validation.data`: the request after `createPaymentSchema` succeeded,
with `price`/`total` coerced to numbers. -/
structure PaymentRequest where
  carrinho : List CartItem
  nomeCliente : String
  email : String
  telefone : String
  endereco : Endereco
  total : ℚ
deriving Repr, DecidableEq

/-! ## Validation layer (`createPaymentSchema.safeParse`) -/

/-- Outcome of `createPaymentSchema.safeParse(req.body)`: zod's
`{success:true, data}`, zod's `{success:false, error.errors}` (modelled as
the list of issue messages), or an `Error` thrown inside a `.transform`
callback — zod v3 does not catch such an error, so it escapes `safeParse`
and lands in the route handler's outer `catch`. -/
inductive ParseOutcome (α : Type) where
  | success (a : α)
  | failure (issues : List String)
  | thrown (msg : String)
deriving Repr, DecidableEq

/-- Simplified model of `z.string().email()`: one `@` separating a
non-empty local part from a domain that contains an inner dot. Used only
through hypotheses and concrete witnesses. -/
def emailValid (s : String) : Bool :=
  let cs := s.toList
  let l := cs.takeWhile (· ≠ '@')
  match cs.dropWhile (· ≠ '@') with
  | '@' :: d =>
    !l.isEmpty && !d.isEmpty && !d.contains '@' && d.contains '.' &&
      d.head? ≠ some '.' && d.getLast? ≠ some '.'
  | _ => false

/-- The issue list of a `z.string().min(1, msg)` check. -/
def min1Issue (v : String) (msg : String) : List String :=
  if v.isEmpty then [msg] else []

/-- Parse one `carrinho` entry (lines 37-53).  The `price` transform
throws `"Preço inválido"` when coercion yields `NaN` (line 45) — an
`Except.error` here models that thrown exception; otherwise the item
parses, contributing the `quantity` min-check issue if any (line 48). -/
def parseCartItem (it : RawCartItem) : Except String (List String × CartItem) :=
  let quantityIssues : List String :=
    if it.quantity < 1 then ["Quantidade deve ser maior que zero"] else []
  match it.price with
  | none => .ok (quantityIssues, ⟨it.id, it.name, none, it.quantity, it.variacoes⟩)
  | some v =>
    match coerceNum v with
    | none => .error "Preço inválido"
    | some q => .ok (quantityIssues, ⟨it.id, it.name, some q, it.quantity, it.variacoes⟩)

/-- Parse the `carrinho` array in order; the first thrown price transform
aborts the whole parse (zod runs the element schemas sequentially and an
exception propagates immediately). -/
def parseCarrinho : List RawCartItem → Except String (List String × List CartItem)
  | [] => .ok ([], [])
  | it :: rest => do
    let (iss, item) ← parseCartItem it
    let (issRest, items) ← parseCarrinho rest
    .ok (iss ++ issRest, item :: items)

/-- The issue list of `enderecoSchema` (lines 25-33). -/
def enderecoIssues (e : Endereco) : List String :=
  min1Issue e.cep "CEP é obrigatório" ++ min1Issue e.rua "Rua é obrigatória" ++
  min1Issue e.numero "Número é obrigatório" ++ min1Issue e.bairro "Bairro é obrigatório" ++
  min1Issue e.cidade "Cidade é obrigatória" ++ min1Issue e.estado "Estado é obrigatório"

/-- `createPaymentSchema.safeParse(req.body)` (lines 36-65) on a body with
the accepted JSON field types.  Fields are processed in shape order
(`carrinho`, `nomeCliente`, `email`, `telefone`, `endereco`, `total`);
issues accumulate across fields, but an `Error` thrown inside the `price`
or `total` transform escapes `safeParse` immediately (zod v3 does not
catch transform exceptions), which the `thrown` outcome records.  The
`total` transform (lines 58-64) throws
`"Total deve ser um número maior que zero"` when the coerced value is
`NaN` or `≤ 0`. -/
def createPaymentSchemaSafeParse (r : RawPaymentRequest) :
    ParseOutcome PaymentRequest :=
  match parseCarrinho r.carrinho with
  | .error msg => .thrown msg
  | .ok (cartIssues, items) =>
    let issues := cartIssues
      ++ min1Issue r.nomeCliente "Nome do cliente é obrigatório"
      ++ (if emailValid r.email then [] else ["Email inválido"])
      ++ min1Issue r.telefone "Telefone é obrigatório"
      ++ enderecoIssues r.endereco
    match coerceNum r.total with
    | none => .thrown "Total deve ser um número maior que zero"
    | some t =>
      if t ≤ 0 then .thrown "Total deve ser um número maior que zero"
      else if issues.isEmpty then
        .success ⟨items, r.nomeCliente, r.email, r.telefone, r.endereco, t⟩
      else .failure issues

/-! ## Database model (Supabase `pagamentos` table) -/

/-- One element of the `itens` array stored in the order row
(lines 207-214). -/
structure ItensRow where
  produto_id : ItemId
  nome : String
  quantidade : ℚ
  preco_unitario : ℚ
  preco_total : ℚ
  variacoes : Variacoes
deriving Repr, DecidableEq

/-- A row of the `pagamentos` table as inserted by the checkout handler
(lines 199-227). -/
structure OrderRow where
  pagamento_id : String
  status : String
  email : String
  nome_cliente : String
  telefone : String
  valor : ℚ
  itens : List ItensRow
  endereco_entrega : Endereco
  created_at : Nat
  updated_at : Nat
deriving Repr, DecidableEq

/-- The state of the `pagamentos` table. -/
abbrev DbState := List OrderRow

/-- `supabase.from('pagamentos').insert([row])`: appends one row. -/
def insertOrderRow (db : DbState) (row : OrderRow) : DbState := db ++ [row]

/-- `supabase.from('pagamentos').update({status, updated_at}).eq('pagamento_id', pid)`:
overwrites the status and timestamp of every row keyed by `pid`
(lines 308-314 and 495-501). -/
def updateStatusRows (db : DbState) (pid : String) (st : String) (ts : Nat) :
    DbState :=
  db.map fun row =>
    if row.pagamento_id = pid then { row with status := st, updated_at := ts }
    else row

/-- Outcome of a fallible Supabase write: success, or failure — the
handlers treat a returned `{ error }` object and a thrown exception
identically (log and continue), so both are `failed`. -/
inductive DbWriteOutcome where
  | success
  | failed (msg : String)
deriving Repr, DecidableEq

/-- Outcomes of the three fallible `pagamentos` writes, supplied as an
oracle for the Supabase client: the checkout insert (lines 197-228), the
webhook status update (lines 308-314), and the delivered update
(lines 495-501).  A `some` client models `supabase !== null`. -/
structure SupabaseBehavior where
  insertOutcome : DbWriteOutcome
  updateOutcome : DbWriteOutcome
  deliveredOutcome : DbWriteOutcome
deriving Repr, DecidableEq

/-! ## Payment processor model (Mercado Pago client) -/

/-- The fields of the `payment.create` response the handler reads
(lines 181-262); the three `point_of_interaction.transaction_data` fields
are already projected to their `|| null` defaults. -/
structure CreateResp where
  id : Nat
  status : String
  qr_code : Option String
  qr_code_base64 : Option String
  ticket_url : Option String
deriving Repr, DecidableEq

/-- An entry of the `metadata.carrinho` array attached to a created
payment (lines 154-160). -/
structure MetaItem where
  produto_id : ItemId
  nome : String
  quantidade : ℚ
  preco_unitario : Option ℚ
  variacoes : Variacoes
deriving Repr, DecidableEq

/-- The slice of a payment's `metadata` blob the fulfillment code reads
(`metadata?.carrinho`, `metadata?.email`; lines 438-440).  The blob also
carries `cliente`, `telefone`, `endereco` and `total_itens`, which no
handler reads back. -/
structure Metadata where
  carrinho : List MetaItem
  email : Option String
deriving Repr, DecidableEq

/-- The fields of a `payment.get` response the webhook and status
handlers read. -/
structure PaymentDetails where
  id : Nat
  status : String
  status_detail : String
  transaction_amount : ℚ
  metadata : Option Metadata
deriving Repr, DecidableEq

/-- The Mercado Pago client operations, attempt-indexed: `create i`
(resp. `getPayment i`) is the result of the `i`-th invocation inside the
retry loop; `Except.error` is a rejected promise.  `payment.create` may
resolve to a nullish value — the handler checks `!paymentResponse`
(line 181) — hence the `Option`. -/
structure PaymentOps where
  create : Nat → Except String (Option CreateResp)
  getPayment : Nat → Except String PaymentDetails

/-! ## `POST /api/payments/criar-pagamento` (lines 112-280) -/

/-- The `itens` row stored for one cart item (lines 207-214):
`preco_unitario = item.price || 0`, `preco_total = (item.price || 0) * quantity`. -/
def itensRowOfItem (item : CartItem) : ItensRow :=
  ⟨item.id, item.name, item.quantity, item.price.getD 0,
   item.price.getD 0 * item.quantity, orEmptyVariacoes item.variacoes⟩

/-- The order row inserted on successful payment creation
(lines 199-227), keyed by `paymentResponse.id.toString()`. -/
def orderRowOfRequest (resp : CreateResp) (d : PaymentRequest) (now : Nat) :
    OrderRow where
  pagamento_id := toString resp.id
  status := resp.status
  email := d.email
  nome_cliente := d.nomeCliente
  telefone := d.telefone
  valor := d.total
  itens := d.carrinho.map itensRowOfItem
  endereco_entrega :=
    { d.endereco with complemento := complementoOrNull d.endereco.complemento }
  created_at := now
  updated_at := now

/-- A `produtos` entry of the response body (lines 256-261). -/
structure ProdutoInfo where
  id : ItemId
  nome : String
  quantidade : ℚ
  variacoes : Variacoes
deriving Repr, DecidableEq

/-- The `paymentInfo` response body returned to the frontend
(lines 245-262). -/
structure PaymentInfo where
  id : Nat
  status : String
  qr_code : Option String
  qr_code_base64 : Option String
  ticket_url : Option String
  total : ℚ
  cliente : String
  email : String
  telefone : String
  endereco : Endereco
  produtos : List ProdutoInfo
deriving Repr, DecidableEq

/-- `paymentInfo` assembled from the create response and the validated
request (lines 245-262). -/
def paymentInfoOf (resp : CreateResp) (d : PaymentRequest) : PaymentInfo :=
  ⟨resp.id, resp.status, resp.qr_code, resp.qr_code_base64, resp.ticket_url,
   d.total, d.nomeCliente, d.email, d.telefone, d.endereco,
   d.carrinho.map fun item =>
     ⟨item.id, item.name, item.quantity, orEmptyVariacoes item.variacoes⟩⟩

/-- Response bodies of `POST /api/payments/criar-pagamento`. -/
inductive CriarBody where
  | dadosInvalidos (details : List String)
  | servicoIndisponivel
  | erroCriarPagamento
  | pagamento (info : PaymentInfo)
  | erroInterno (details : String)
deriving Repr, DecidableEq

/-- Observable result of one `criar-pagamento` request: HTTP status and
body, the resulting `pagamentos` table, the number of `payment.create`
invocations, and whether the Supabase insert was reached. -/
structure CriarResult where
  status : Nat
  body : CriarBody
  db : DbState
  createCalls : Nat
  insertAttempted : Bool
deriving Repr, DecidableEq

/-- The `POST /api/payments/criar-pagamento` handler (lines 112-280):
validate the body (a thrown transform error escapes `safeParse` and hits
the outer `catch`, producing 500; a zod failure produces 400 with the
issue list); 503 when the Mercado Pago client is absent; then
`const firstItem = carrinho[0]; const itemName = firstItem.name`
(lines 136-137) — the schema puts no lower bound on `carrinho`, so for a
validated empty cart `firstItem` is `undefined` and reading `.name`
throws a TypeError into the outer `catch` (500, before `payment.create`
is ever invoked); otherwise create the payment through
`retryWithBackoff(·, 3, 1000)` — an ultimately failing create throws
into the outer `catch` (500); on success, the best-effort Supabase
insert (failure only logged); finally 200 with `paymentInfo`. -/
def criarPagamento (body : RawPaymentRequest) (payment : Option PaymentOps)
    (supabase : Option SupabaseBehavior) (db : DbState) (now : Nat) :
    CriarResult :=
  match createPaymentSchemaSafeParse body with
  | .thrown msg => ⟨500, .erroInterno msg, db, 0, false⟩
  | .failure issues => ⟨400, .dadosInvalidos issues, db, 0, false⟩
  | .success d =>
    match payment with
    | none => ⟨503, .servicoIndisponivel, db, 0, false⟩
    | some ops =>
      match d.carrinho with
      | [] =>
        ⟨500,
         .erroInterno "Cannot read properties of undefined (reading 'name')",
         db, 0, false⟩
      | _ :: _ =>
      let trace := retryWithBackoff ops.create 3 1000
      match trace.outcome with
      | .opFailure e => ⟨500, .erroInterno e, db, trace.calls, false⟩
      | .maxRetriesExceeded =>
        ⟨500, .erroInterno "Max retries exceeded", db, trace.calls, false⟩
      | .ok none => ⟨500, .erroCriarPagamento, db, trace.calls, false⟩
      | .ok (some resp) =>
        match supabase with
        | none => ⟨200, .pagamento (paymentInfoOf resp d), db, trace.calls, false⟩
        | some sb =>
          let newDb :=
            match sb.insertOutcome with
            | .success => insertOrderRow db (orderRowOfRequest resp d now)
            | .failed _ => db
          ⟨200, .pagamento (paymentInfoOf resp d), newDb, trace.calls, true⟩

/-! ## Fulfillment (`processApprovedPayment`, lines 429-519) -/

/-- A row of the `produtos` table, as selected by
`select("id, name, download_url")`. -/
structure Produto where
  id : ItemId
  name : String
  download_url : Option String
deriving Repr, DecidableEq

/-- Outcome of one
`supabase.from("produtos").select(...).eq("id", pid).single()` lookup:
a thrown exception, a returned error or missing row (the code treats
`error || !produto` uniformly), or the product row. -/
inductive LookupResult where
  | thrown (msg : String)
  | errOrNotFound
  | found (p : Produto)
deriving Repr, DecidableEq

/-- The `produtos` catalog, as an oracle keyed by product identifier. -/
abbrev Catalog := ItemId → LookupResult

/-- JavaScript truthiness of an optional string field such as
`produto.download_url` or `data?.id`: missing and empty-string values are
falsy. -/
def truthyStr : Option String → Option String
  | none => none
  | some s => if s.isEmpty then none else some s

/-- A resolved downloadable-asset link (lines 466-472); this variant (the
fulfillment one) carries the purchased quantity. -/
structure DownloadLink where
  produto_id : ItemId
  nome : String
  download_url : String
  quantidade : ℚ
  variacoes : Variacoes
deriving Repr, DecidableEq

/-- The link-resolution loop of `processApprovedPayment` (lines 450-481):
a lookup failure — returned error, missing row, or thrown exception (the
latter caught by the per-item `catch`, lines 478-480) — skips the item and
continues; a product whose `download_url` is not configured (falsy) is
skipped with a warning (line 476). -/
def resolveLinks (catalog : Catalog) : List MetaItem → List DownloadLink
  | [] => []
  | item :: rest =>
    match catalog item.produto_id with
    | .thrown _ => resolveLinks catalog rest
    | .errOrNotFound => resolveLinks catalog rest
    | .found p =>
      match truthyStr p.download_url with
      | none => resolveLinks catalog rest
      | some url =>
        ⟨p.id, p.name, url, item.quantidade, item.variacoes⟩ ::
          resolveLinks catalog rest

/-- JavaScript truthiness of `metadata?.email` (line 442): a missing or
empty-string email fails the `!email` guard. -/
def emailTruthy : Option String → Bool
  | none => false
  | some s => !s.isEmpty

/-- `processApprovedPayment(paymentDetails, supabase)` (lines 429-519) as
a transformer of the `pagamentos` table.  The table is unchanged when the
Supabase client is absent (line 433), when the metadata lacks a non-empty
`carrinho` or a truthy `email` (line 442), when zero links resolve
(line 511, log only), or when the delivered update itself fails (log
only); otherwise the order's status is overwritten with `'delivered'`,
keyed by `paymentDetails.id.toString()` (lines 495-501). -/
def processApprovedPayment (pd : PaymentDetails)
    (supabase : Option SupabaseBehavior) (catalog : Catalog) (db : DbState)
    (now : Nat) : DbState :=
  match supabase with
  | none => db
  | some sb =>
    let carrinho := match pd.metadata with | none => [] | some m => m.carrinho
    let email := match pd.metadata with | none => none | some m => m.email
    if carrinho.isEmpty || !emailTruthy email then db
    else
      let downloadLinks := resolveLinks catalog carrinho
      if downloadLinks.isEmpty then db
      else
        match sb.deliveredOutcome with
        | .success => updateStatusRows db (toString pd.id) "delivered" now
        | .failed _ => db

/-- A downloadable-asset link as returned by `getDownloadLinks`
(lines 539-544); unlike the fulfillment variant it carries no quantity. -/
structure StatusLink where
  produto_id : ItemId
  nome : String
  download_url : String
  variacoes : Variacoes
deriving Repr, DecidableEq

/-- The lookup loop of `getDownloadLinks` (lines 531-546).  The whole loop
runs inside a single `try`, so a thrown lookup aborts everything —
`none` models the exception escaping to the surrounding `catch`. -/
def getDownloadLinksLoop (catalog : Catalog) :
    List MetaItem → Option (List StatusLink)
  | [] => some []
  | item :: rest =>
    match catalog item.produto_id with
    | .thrown _ => none
    | .errOrNotFound => getDownloadLinksLoop catalog rest
    | .found p =>
      match truthyStr p.download_url with
      | none => getDownloadLinksLoop catalog rest
      | some url =>
        match getDownloadLinksLoop catalog rest with
        | none => none
        | some links => some (⟨p.id, p.name, url, item.variacoes⟩ :: links)

/-- `getDownloadLinks(paymentDetails, supabase)` (lines 522-554): `[]`
when the Supabase client is absent (lines 523-524); the loop's links on
normal completion; `[]` from the `catch` when a lookup throws
(lines 550-553). -/
def getDownloadLinks (pd : PaymentDetails) (supabase : Option SupabaseBehavior)
    (catalog : Catalog) : List StatusLink :=
  match supabase with
  | none => []
  | some _ =>
    let carrinho := match pd.metadata with | none => [] | some m => m.carrinho
    match getDownloadLinksLoop catalog carrinho with
    | none => []
    | some links => links

/-! ## `POST /api/payments/webhook` (lines 283-341) -/

/-- The parsed webhook body: `const { data, type } = req.body` with
`data?.id` (lines 287-291).  The payment id (string or number in JSON) is
modelled in its string form, which is how it keys the row update
(`paymentId.toString()`, line 314). -/
structure WebhookBody where
  type : Option String
  dataId : Option String
deriving Repr, DecidableEq

/-- Response bodies of `POST /api/payments/webhook`. -/
inductive WebhookRespBody where
  | received
  | mpNaoConfigurado
  | erroInterno (details : String)
deriving Repr, DecidableEq

/-- Observable result of one webhook delivery: HTTP status and body, the
resulting `pagamentos` table, and the number of `payment.get`
invocations. -/
structure WebhookResult where
  status : Nat
  body : WebhookRespBody
  db : DbState
  getCalls : Nat
deriving Repr, DecidableEq

/-- The `POST /api/payments/webhook` handler (lines 283-341).  When the
body is a payment notification with a truthy id: 503 if the Mercado Pago
client is absent (line 295); otherwise fetch the payment through
`retryWithBackoff(·, 3, 2000)` — an ultimately failing fetch rethrows
into the outer `catch`, which responds 500 (lines 334-340); on success, a
best-effort status update (failure only logged), then
`processApprovedPayment` when the fetched status is `"approved"`.  Every
other path reaches `res.status(200).json({received: true})` (line 332). -/
def webhookHandler (body : WebhookBody) (payment : Option PaymentOps)
    (supabase : Option SupabaseBehavior) (catalog : Catalog) (db : DbState)
    (now : Nat) : WebhookResult :=
  match body.type, truthyStr body.dataId with
  | some "payment", some pid =>
    (match payment with
    | none => ⟨503, .mpNaoConfigurado, db, 0⟩
    | some ops =>
      let trace := retryWithBackoff ops.getPayment 3 2000
      match trace.outcome with
      | .opFailure e => ⟨500, .erroInterno e, db, trace.calls⟩
      | .maxRetriesExceeded =>
        ⟨500, .erroInterno "Max retries exceeded", db, trace.calls⟩
      | .ok details =>
        let db1 :=
          match supabase with
          | none => db
          | some sb =>
            match sb.updateOutcome with
            | .success => updateStatusRows db pid details.status now
            | .failed _ => db
        let db2 :=
          if details.status = "approved" then
            processApprovedPayment details supabase catalog db1 now
          else db1
        ⟨200, .received, db2, trace.calls⟩)
  | _, _ => ⟨200, .received, db, 0⟩

/-! ## `GET /api/payments/status/:id` (lines 344-379) -/

/-- Response bodies of `GET /api/payments/status/:id`; `download_links`
is present only when the fetched status is `"approved"`
(lines 365-368). -/
inductive StatusBody where
  | ok (id : Nat) (status : String) (status_detail : String)
      (transaction_amount : ℚ) (download_links : Option (List StatusLink))
  | servicoIndisponivel
  | erroInterno (details : String)
deriving Repr, DecidableEq

/-- Observable result of one status poll: HTTP status and body. -/
structure StatusResult where
  status : Nat
  body : StatusBody
deriving Repr, DecidableEq

/-- The `GET /api/payments/status/:id` handler (lines 344-379): 503 when
the Mercado Pago client is absent; fetch through
`retryWithBackoff(·, 3, 1000)` — an ultimately failing fetch rethrows
into the `catch` (500); on success, 200 with the payment projection, plus
`download_links` from `getDownloadLinks` when the status is
`"approved"`. -/
def statusHandler (payment : Option PaymentOps)
    (supabase : Option SupabaseBehavior) (catalog : Catalog) : StatusResult :=
  match payment with
  | none => ⟨503, .servicoIndisponivel⟩
  | some ops =>
    let trace := retryWithBackoff ops.getPayment 3 1000
    match trace.outcome with
    | .opFailure e => ⟨500, .erroInterno e⟩
    | .maxRetriesExceeded => ⟨500, .erroInterno "Max retries exceeded"⟩
    | .ok pd =>
      if pd.status = "approved" then
        ⟨200, .ok pd.id pd.status pd.status_detail pd.transaction_amount
          (some (getDownloadLinks pd supabase catalog))⟩
      else
        ⟨200, .ok pd.id pd.status pd.status_detail pd.transaction_amount none⟩

/-! ## Concrete fixtures used by the witnesses -/

/-- A concrete shipping address. -/
def endEx : Endereco :=
  ⟨"01000-000", "Rua A", "10", none, "Centro", "Sao Paulo", "SP"⟩

/-- A concrete well-formed order request. -/
def reqEx : RawPaymentRequest :=
  ⟨[⟨.num 1, "X", some (.num 10), 2, none⟩], "Ana", "ana@example.com",
   "11999990000", endEx, .num 20⟩

/-- The validated form of `reqEx`. -/
def dEx : PaymentRequest :=
  ⟨[⟨.num 1, "X", some 10, 2, none⟩], "Ana", "ana@example.com",
   "11999990000", endEx, 20⟩

/-- A concrete `payment.create` response. -/
def respEx : CreateResp := ⟨77, "pending", some "qr-payload", none, none⟩

/-! ## Claims about the webhook handler -/

/-- C2 counterexample: the claim states that the webhook handler responds
`200 {received: true}` for every parsed body regardless of downstream
processing outcome; at this concrete input — a payment notification for a
payment id unknown to the processor, whose status fetch fails on every
retry — the handler responds 500, not 200. -/
theorem webhook_fetch_failure_responds_500 :
    (webhookHandler ⟨some "payment", some "123"⟩
        (some ⟨fun _ => Except.error "mp down",
               fun _ => Except.error "Payment not found"⟩)
        none (fun _ => .errOrNotFound) [] 0).status = 500 ∧
    (webhookHandler ⟨some "payment", some "123"⟩
        (some ⟨fun _ => Except.error "mp down",
               fun _ => Except.error "Payment not found"⟩)
        none (fun _ => .errOrNotFound) [] 0).body ≠ .received := by
  exact ⟨rfl, by decide⟩

/-- C2 (amended): once the body is parsed, the webhook handler responds
`200 {received: true}` whenever the body is not a payment notification
with a truthy id, or the payment-status fetch through the retry executor
succeeds — in the latter case regardless of the database-update and
fulfillment outcomes; when the body is a payment notification whose fetch
ultimately fails, it responds 500, and 503 when the payment client is
unconfigured. -/
theorem webhook_response_characterization (body : WebhookBody)
    (payment : Option PaymentOps) (supabase : Option SupabaseBehavior)
    (catalog : Catalog) (db : DbState) (now : Nat) :
    ((body.type ≠ some "payment" ∨ truthyStr body.dataId = none) →
      webhookHandler body payment supabase catalog db now =
        ⟨200, .received, db, 0⟩) ∧
    (∀ ops pid details, payment = some ops → body.type = some "payment" →
      truthyStr body.dataId = some pid →
      (retryWithBackoff ops.getPayment 3 2000).outcome = .ok details →
      (webhookHandler body payment supabase catalog db now).status = 200 ∧
      (webhookHandler body payment supabase catalog db now).body = .received) ∧
    (∀ ops pid e, payment = some ops → body.type = some "payment" →
      truthyStr body.dataId = some pid →
      (retryWithBackoff ops.getPayment 3 2000).outcome = .opFailure e →
      (webhookHandler body payment supabase catalog db now).status = 500) ∧
    (∀ pid, payment = none → body.type = some "payment" →
      truthyStr body.dataId = some pid →
      (webhookHandler body payment supabase catalog db now).status = 503) := by
  refine ⟨?_, ?_, ?_, ?_⟩
  · intro h
    unfold webhookHandler
    split
    · rename_i pid htype hid
      rcases h with h | h
      · exact absurd htype h
      · rw [h] at hid; cases hid
    · rfl
  · intro ops pid details hpay htype hid hfetch
    subst hpay
    constructor <;>
      simp [webhookHandler, htype, hid, hfetch]
  · intro ops pid e hpay htype hid hfetch
    subst hpay
    simp [webhookHandler, htype, hid, hfetch]
  · intro pid hpay htype hid
    subst hpay
    simp [webhookHandler, htype, hid]

/-- Witness for `webhook_response_characterization`: a payment
notification whose fetch succeeds yields `200 received` even though the
Supabase update and the fulfillment update both fail. -/
theorem webhook_response_characterization_witness :
    (webhookHandler ⟨some "payment", some "77"⟩
        (some ⟨fun _ => Except.error "unused",
               fun _ => Except.ok ⟨77, "approved", "accredited", 20,
                 some ⟨[⟨.num 1, "X", 2, some 10, ⟨none, none⟩⟩], some "ana@example.com"⟩⟩⟩)
        (some ⟨.failed "insert", .failed "update", .failed "delivered"⟩)
        (fun _ => .found ⟨.num 1, "X", some "https://dl"⟩) [] 9).status = 200 ∧
    (webhookHandler ⟨some "payment", some "77"⟩
        (some ⟨fun _ => Except.error "unused",
               fun _ => Except.ok ⟨77, "approved", "accredited", 20,
                 some ⟨[⟨.num 1, "X", 2, some 10, ⟨none, none⟩⟩], some "ana@example.com"⟩⟩⟩)
        (some ⟨.failed "insert", .failed "update", .failed "delivered"⟩)
        (fun _ => .found ⟨.num 1, "X", some "https://dl"⟩) [] 9).body = .received :=
  (webhook_response_characterization ⟨some "payment", some "77"⟩ _ _ _ [] 9).2.1
    _ "77" _ rfl rfl rfl rfl

/-! ## Claims about the checkout handler -/

/-- C3: For every order request whose `total` coerces to `NaN` or to a
non-positive number, the `total` transform's thrown error (or, for a cart
with an equally invalid `price`, that field's thrown error) escapes
`safeParse`, so the handler answers 500 `Erro interno do servidor` — not
the 400 with field-level issues the claim states.  No payment intent is
created (`createCalls = 0`), nothing is persisted, and the insert is
never reached. -/
theorem criarPagamento_invalidTotal (r : RawPaymentRequest)
    (payment : Option PaymentOps) (supabase : Option SupabaseBehavior)
    (db : DbState) (now : Nat)
    (h : ∀ t, coerceNum r.total = some t → t ≤ 0) :
    ∃ msg, criarPagamento r payment supabase db now =
      ⟨500, .erroInterno msg, db, 0, false⟩ := by
  have hsp : ∃ msg, createPaymentSchemaSafeParse r = .thrown msg := by
    unfold createPaymentSchemaSafeParse
    cases hp : parseCarrinho r.carrinho with
    | error msg => exact ⟨msg, rfl⟩
    | ok pr =>
      obtain ⟨iss, items⟩ := pr
      cases hco : coerceNum r.total with
      | none => exact ⟨"Total deve ser um número maior que zero", by simp [hco]⟩
      | some t =>
        exact ⟨"Total deve ser um número maior que zero",
               by simp [hco, h t hco]⟩
  obtain ⟨msg, hm⟩ := hsp
  exact ⟨msg, by simp [criarPagamento, hm]⟩

/-- Witness for `criarPagamento_invalidTotal` at the concrete failing
input: `reqEx` with `total := "abc"` (a non-numeric string). -/
theorem criarPagamento_invalidTotal_witness :
    ∃ msg, criarPagamento { reqEx with total := NumOrStr.str "abc" } none none
        [] 0 = ⟨500, .erroInterno msg, [], 0, false⟩ :=
  criarPagamento_invalidTotal _ none none [] 0
    (by intro t ht
        have hn : coerceNum (NumOrStr.str "abc") = none := by decide
        rw [show ({ reqEx with total := NumOrStr.str "abc" } :
              RawPaymentRequest).total = NumOrStr.str "abc" from rfl, hn] at ht
        cases ht)

/-- C4: For every validated order request whose payment-intent creation
through the retry executor would ultimately fail, the handler reports a
500 error to the caller, the `pagamentos` table is untouched, and the
Supabase insert is never attempted.  For an empty validated cart this
happens through the `carrinho[0].name` TypeError (lines 136-137) before
`payment.create` is ever invoked; for a non-empty cart the rethrown
create failure pins the full result, including the three create
attempts. -/
theorem criarPagamento_createFailure (r : RawPaymentRequest)
    (ops : PaymentOps) (supabase : Option SupabaseBehavior) (db : DbState)
    (now : Nat) (d : PaymentRequest) (e : String)
    (hv : createPaymentSchemaSafeParse r = .success d)
    (hc : (retryWithBackoff ops.create 3 1000).outcome = .opFailure e) :
    (criarPagamento r (some ops) supabase db now).status = 500 ∧
    (criarPagamento r (some ops) supabase db now).db = db ∧
    (criarPagamento r (some ops) supabase db now).insertAttempted = false ∧
    (d.carrinho ≠ [] →
      criarPagamento r (some ops) supabase db now =
        ⟨500, .erroInterno e, db,
         (retryWithBackoff ops.create 3 1000).calls, false⟩) := by
  cases hcar : d.carrinho with
  | nil =>
    refine ⟨?_, ?_, ?_, fun h => absurd rfl h⟩ <;>
      simp [criarPagamento, hv, hcar]
  | cons a as =>
    have hfull : criarPagamento r (some ops) supabase db now =
        ⟨500, .erroInterno e, db,
         (retryWithBackoff ops.create 3 1000).calls, false⟩ := by
      simp [criarPagamento, hv, hcar, hc]
    exact ⟨by rw [hfull], by rw [hfull], by rw [hfull], fun _ => hfull⟩

/-- Witness for `criarPagamento_createFailure`: the concrete request
`reqEx` (non-empty cart) with an always-failing `payment.create` yields
500, an unchanged table, three create attempts, and no insert. -/
theorem criarPagamento_createFailure_witness :
    criarPagamento reqEx
        (some ⟨fun _ => Except.error "down", fun _ => Except.error "x"⟩)
        (some ⟨.success, .success, .success⟩) [] 5 =
      ⟨500, .erroInterno "down", [], 3, false⟩ :=
  (criarPagamento_createFailure reqEx
      ⟨fun _ => Except.error "down", fun _ => Except.error "x"⟩
      (some ⟨.success, .success, .success⟩) [] 5 dEx "down" (by decide)
      rfl).2.2.2 (by decide)

/-- C5: When the payment intent is created successfully — which requires
a non-empty cart, since a validated empty cart crashes at
`carrinho[0].name` (lines 136-137) before `payment.create` is reached —
a failing Supabase insert (a returned database error or a thrown
exception — both are `DbWriteOutcome.failed`) does not fail the request:
the handler still responds 200 with the `paymentInfo` projection of the
created intent, and the table is simply left unchanged. -/
theorem criarPagamento_insertFailure_still_succeeds (r : RawPaymentRequest)
    (ops : PaymentOps) (sb : SupabaseBehavior) (db : DbState) (now : Nat)
    (d : PaymentRequest) (resp : CreateResp) (msg : String)
    (hne : d.carrinho ≠ [])
    (hv : createPaymentSchemaSafeParse r = .success d)
    (hc : (retryWithBackoff ops.create 3 1000).outcome = .ok (some resp))
    (hins : sb.insertOutcome = .failed msg) :
    (criarPagamento r (some ops) (some sb) db now).status = 200 ∧
    (criarPagamento r (some ops) (some sb) db now).body =
      .pagamento (paymentInfoOf resp d) ∧
    (criarPagamento r (some ops) (some sb) db now).db = db := by
  cases hcar : d.carrinho with
  | nil => exact absurd hcar hne
  | cons a as =>
    refine ⟨?_, ?_, ?_⟩ <;> simp [criarPagamento, hv, hcar, hc, hins]

/-- Witness for `criarPagamento_insertFailure_still_succeeds`: the
concrete request `reqEx` with a successful create and a failing insert
still receives the 200 `paymentInfo` response. -/
theorem criarPagamento_insertFailure_still_succeeds_witness :
    (criarPagamento reqEx
        (some ⟨fun _ => Except.ok (some respEx), fun _ => Except.error "x"⟩)
        (some ⟨.failed "duplicate key", .success, .success⟩) [] 5).status =
      200 ∧
    (criarPagamento reqEx
        (some ⟨fun _ => Except.ok (some respEx), fun _ => Except.error "x"⟩)
        (some ⟨.failed "duplicate key", .success, .success⟩) [] 5).body =
      .pagamento (paymentInfoOf respEx dEx) ∧
    (criarPagamento reqEx
        (some ⟨fun _ => Except.ok (some respEx), fun _ => Except.error "x"⟩)
        (some ⟨.failed "duplicate key", .success, .success⟩) [] 5).db = [] :=
  criarPagamento_insertFailure_still_succeeds reqEx _ _ [] 5 dEx respEx
    "duplicate key" (by decide) (by decide) rfl rfl

/-! ## Claims about fulfillment -/

/-- Reduction of `processApprovedPayment` past its guards: with a
configured Supabase client and a metadata blob carrying a non-empty cart
and a truthy email, the function is exactly the delivered-update
conditioned on the resolved links. -/
theorem processApprovedPayment_eq (pd : PaymentDetails)
    (sb : SupabaseBehavior) (catalog : Catalog) (db : DbState) (now : Nat)
    (m : Metadata) (hm : pd.metadata = some m)
    (hcart : m.carrinho.isEmpty = false)
    (hemail : emailTruthy m.email = true) :
    processApprovedPayment pd (some sb) catalog db now =
      (if (resolveLinks catalog m.carrinho).isEmpty then db
       else
        match sb.deliveredOutcome with
        | .success => updateStatusRows db (toString pd.id) "delivered" now
        | .failed _ => db) := by
  simp [processApprovedPayment, hm, hcart, hemail]

/-- C6: During fulfillment of an approved payment (configured client,
metadata with a non-empty cart and truthy email, healthy delivered
update): if at least one downloadable-asset link resolves from the cart
items, the order's status is overwritten with `delivered`; if zero links
resolve, the table is untouched (the situation is only logged). -/
theorem processApprovedPayment_delivered_iff_links (pd : PaymentDetails)
    (sb : SupabaseBehavior) (catalog : Catalog) (db : DbState) (now : Nat)
    (m : Metadata) (hm : pd.metadata = some m) (hcart : m.carrinho ≠ [])
    (hemail : emailTruthy m.email = true)
    (hupd : sb.deliveredOutcome = .success) :
    (resolveLinks catalog m.carrinho ≠ [] →
      processApprovedPayment pd (some sb) catalog db now =
        updateStatusRows db (toString pd.id) "delivered" now) ∧
    (resolveLinks catalog m.carrinho = [] →
      processApprovedPayment pd (some sb) catalog db now = db) := by
  have hc : m.carrinho.isEmpty = false := by
    cases hn : m.carrinho with
    | nil => exact absurd hn hcart
    | cons _ _ => rfl
  have hbase := processApprovedPayment_eq pd sb catalog db now m hm hc hemail
  constructor
  · intro hne
    have hl : (resolveLinks catalog m.carrinho).isEmpty = false := by
      cases hres : resolveLinks catalog m.carrinho with
      | nil => exact absurd hres hne
      | cons _ _ => rfl
    rw [hbase]
    simp [hl, hupd]
  · intro hnil
    rw [hbase]
    simp [hnil]

/-- A concrete metadata cart item. -/
def itemEx : MetaItem := ⟨.num 1, "X", 2, some 10, ⟨none, none⟩⟩

/-- A second concrete metadata cart item, for a linkless product. -/
def item2Ex : MetaItem := ⟨.num 2, "Y", 1, some 5, ⟨none, none⟩⟩

/-- Concrete payment details for an approved payment whose metadata holds
one cart item. -/
def pdEx : PaymentDetails :=
  ⟨77, "approved", "accredited", 20, some ⟨[itemEx], some "ana@example.com"⟩⟩

/-- Concrete payment details whose metadata holds two cart items. -/
def pd2Ex : PaymentDetails :=
  ⟨77, "approved", "accredited", 25,
   some ⟨[itemEx, item2Ex], some "ana@example.com"⟩⟩

/-- A concrete order row, as inserted for `respEx`/`dEx`. -/
def rowEx : OrderRow := orderRowOfRequest respEx dEx 5

/-- A Supabase behaviour whose three writes all succeed. -/
def sbOk : SupabaseBehavior := ⟨.success, .success, .success⟩

/-- A catalog in which every product has a download link. -/
def catFound : Catalog := fun _ => .found ⟨.num 1, "X", some "https://dl/x"⟩

/-- A catalog in which every product exists but has no download link. -/
def catLinkless : Catalog := fun _ => .found ⟨.num 1, "X", none⟩

/-- A catalog whose every lookup throws. -/
def catThrow : Catalog := fun _ => .thrown "db down"

/-- A catalog giving product 1 a link and product 2 none. -/
def catMixed : Catalog := fun pid =>
  if pid = .num 1 then .found ⟨.num 1, "X", some "https://dl/x"⟩
  else .found ⟨.num 2, "Y", none⟩

/-- Witness for `processApprovedPayment_delivered_iff_links`: with a
linked catalog the concrete order is marked delivered; with a linkless
catalog the table is unchanged. -/
theorem processApprovedPayment_delivered_iff_links_witness :
    processApprovedPayment pdEx (some sbOk) catFound [rowEx] 9 =
      updateStatusRows [rowEx] "77" "delivered" 9 ∧
    processApprovedPayment pdEx (some sbOk) catLinkless [rowEx] 9 =
      [rowEx] :=
  ⟨(processApprovedPayment_delivered_iff_links pdEx sbOk catFound [rowEx] 9 _
      rfl (by decide) rfl rfl).1 (by decide),
   (processApprovedPayment_delivered_iff_links pdEx sbOk catLinkless [rowEx] 9
      _ rfl (by decide) rfl rfl).2 (by decide)⟩

/-- C7: Fulfillment skips, without raising any error, every cart item
whose catalog lookup fails (returned error/missing row, or thrown
exception caught by the per-item catch) or whose product has no
configured download link; and in the scenario of a cart with one linked
and one linkless product, exactly one link resolves and the order's
status becomes `delivered`. -/
theorem fulfillment_skip_and_scenario (catalog : Catalog) :
    (∀ item rest, (catalog item.produto_id = .errOrNotFound ∨
        (∃ msg, catalog item.produto_id = .thrown msg) ∨
        (∃ p, catalog item.produto_id = .found p ∧
          truthyStr p.download_url = none)) →
      resolveLinks catalog (item :: rest) = resolveLinks catalog rest) ∧
    (∀ pd sb db now m i1 i2 p1 url,
      pd.metadata = some m → m.carrinho = [i1, i2] →
      emailTruthy m.email = true → sb.deliveredOutcome = .success →
      catalog i1.produto_id = .found p1 →
      truthyStr p1.download_url = some url →
      (catalog i2.produto_id = .errOrNotFound ∨
        (∃ msg, catalog i2.produto_id = .thrown msg) ∨
        (∃ p, catalog i2.produto_id = .found p ∧
          truthyStr p.download_url = none)) →
      (resolveLinks catalog m.carrinho).length = 1 ∧
      processApprovedPayment pd (some sb) catalog db now =
        updateStatusRows db (toString pd.id) "delivered" now) := by
  have hskip : ∀ (item : MetaItem) (rest : List MetaItem),
      (catalog item.produto_id = .errOrNotFound ∨
        (∃ msg, catalog item.produto_id = .thrown msg) ∨
        (∃ p, catalog item.produto_id = .found p ∧
          truthyStr p.download_url = none)) →
      resolveLinks catalog (item :: rest) = resolveLinks catalog rest := by
    intro item rest h
    rcases h with h | ⟨msg, h⟩ | ⟨p, h, hurl⟩
    · simp [resolveLinks, h]
    · simp [resolveLinks, h]
    · simp [resolveLinks, h, hurl]
  refine ⟨hskip, ?_⟩
  intro pd sb db now m i1 i2 p1 url hm hcart hemail hupd h1 hurl h2
  have hres : resolveLinks catalog m.carrinho =
      [⟨p1.id, p1.name, url, i1.quantidade, i1.variacoes⟩] := by
    rw [hcart]
    rcases h2 with h | ⟨msg, h⟩ | ⟨p, h, hu⟩
    · simp [resolveLinks, h1, hurl, h]
    · simp [resolveLinks, h1, hurl, h]
    · simp [resolveLinks, h1, hurl, h, hu]
  have hc : m.carrinho.isEmpty = false := by rw [hcart]; rfl
  refine ⟨by rw [hres]; rfl, ?_⟩
  rw [processApprovedPayment_eq pd sb catalog db now m hm hc hemail, hres]
  simp [hupd]

/-- Witness for `fulfillment_skip_and_scenario`: the concrete two-item
cart against `catMixed` resolves exactly one link and the order is
marked delivered; and the linkless second item is skipped. -/
theorem fulfillment_skip_and_scenario_witness :
    resolveLinks catMixed [item2Ex] = resolveLinks catMixed [] ∧
    (resolveLinks catMixed [itemEx, item2Ex]).length = 1 ∧
    processApprovedPayment pd2Ex (some sbOk) catMixed [rowEx] 9 =
      updateStatusRows [rowEx] "77" "delivered" 9 :=
  ⟨(fulfillment_skip_and_scenario catMixed).1 item2Ex []
      (Or.inr (Or.inr ⟨⟨.num 2, "Y", none⟩, by decide, rfl⟩)),
   (fulfillment_skip_and_scenario catMixed).2 pd2Ex sbOk [rowEx] 9 _ itemEx
      item2Ex ⟨.num 1, "X", some "https://dl/x"⟩ "https://dl/x" rfl rfl rfl
      rfl (by decide) rfl
      (Or.inr (Or.inr ⟨⟨.num 2, "Y", none⟩, by decide, rfl⟩))⟩

/-- C8: The mark-delivered update (lines 495-501) — an unconditional
overwrite of the status and timestamp of the rows keyed by the payment
identifier — is idempotent: running it twice leaves the table exactly as
running it once with the second run's timestamp, and it never changes the
row count (no duplicate rows). -/
theorem markDelivered_idempotent (db : DbState) (pid : String)
    (t1 t2 : Nat) :
    updateStatusRows (updateStatusRows db pid "delivered" t1) pid
        "delivered" t2 =
      updateStatusRows db pid "delivered" t2 ∧
    (updateStatusRows db pid "delivered" t1).length = db.length := by
  constructor
  · induction db with
    | nil => rfl
    | cons row rest ih =>
      simp only [updateStatusRows, List.map_cons] at ih ⊢
      by_cases h : row.pagamento_id = pid <;> simp [h, ih]
  · simp [updateStatusRows]

/-- C9: A webhook request whose body is not a payment notification with a
truthy id — `type ≠ "payment"`, or `data.id` missing or falsy — performs
no payment-status fetch (`getCalls = 0`) and no database write (the
table comes back unchanged), and responds `200 {received: true}`. -/
theorem webhook_non_payment_frame (body : WebhookBody)
    (payment : Option PaymentOps) (supabase : Option SupabaseBehavior)
    (catalog : Catalog) (db : DbState) (now : Nat)
    (h : body.type ≠ some "payment" ∨ truthyStr body.dataId = none) :
    webhookHandler body payment supabase catalog db now =
      ⟨200, .received, db, 0⟩ := by
  unfold webhookHandler
  split
  · rename_i pid htype hid
    rcases h with h | h
    · exact absurd htype h
    · rw [h] at hid; cases hid
  · rfl

/-- Witness for `webhook_non_payment_frame`: a `merchant_order`
notification against a live client and a non-empty table is a no-op
responding `200 received`. -/
theorem webhook_non_payment_frame_witness :
    webhookHandler ⟨some "merchant_order", some "55"⟩
        (some ⟨fun _ => Except.error "unused", fun _ => Except.ok pdEx⟩)
        (some sbOk) catFound [rowEx] 9 = ⟨200, .received, [rowEx], 0⟩ :=
  webhook_non_payment_frame _ _ _ _ [rowEx] 9 (Or.inl (by decide))

/-- Helper for C10: one thrown catalog lookup anywhere in the cart makes
the whole `getDownloadLinks` loop abort with an exception (`none`), since
the loop is wrapped in a single try. -/
theorem getDownloadLinksLoop_none_of_thrown (catalog : Catalog)
    (item : MetaItem) (msg : String)
    (hthr : catalog item.produto_id = .thrown msg) :
    ∀ l : List MetaItem, item ∈ l → getDownloadLinksLoop catalog l = none := by
  intro l
  induction l with
  | nil => intro hmem; cases hmem
  | cons hd tl ih =>
    intro hmem
    rcases List.mem_cons.mp hmem with heq | hmem2
    · subst heq
      simp [getDownloadLinksLoop, hthr]
    · have htl := ih hmem2
      unfold getDownloadLinksLoop
      cases hcat : catalog hd.produto_id with
      | thrown m => rfl
      | errOrNotFound => exact htl
      | found p =>
        cases hu : truthyStr p.download_url with
        | none =>
          simp [htl]
          cases truthyStr p.download_url <;> rfl
        | some url => simp [hu, htl]

/-- C10: `getDownloadLinks` never surfaces a failure (in this embedding
it is a total function into lists): it returns `[]` when the Supabase
client is absent, and `[]` whenever a catalog lookup throws (the
exception is swallowed by the surrounding catch); consequently the status
endpoint, for a successfully fetched approved payment, responds 200
carrying exactly `getDownloadLinks`' possibly-empty list. -/
theorem getDownloadLinks_total_and_status_ok (pd : PaymentDetails)
    (catalog : Catalog) (supabase : Option SupabaseBehavior)
    (ops : PaymentOps) :
    getDownloadLinks pd none catalog = [] ∧
    (∀ m item msg, pd.metadata = some m → item ∈ m.carrinho →
      catalog item.produto_id = .thrown msg →
      getDownloadLinks pd supabase catalog = []) ∧
    ((retryWithBackoff ops.getPayment 3 1000).outcome = .ok pd →
      pd.status = "approved" →
      statusHandler (some ops) supabase catalog =
        ⟨200, .ok pd.id pd.status pd.status_detail pd.transaction_amount
          (some (getDownloadLinks pd supabase catalog))⟩) := by
  refine ⟨rfl, ?_, ?_⟩
  · intro m item msg hm hmem hthr
    unfold getDownloadLinks
    cases supabase with
    | none => rfl
    | some sb =>
      simp only [hm]
      rw [getDownloadLinksLoop_none_of_thrown catalog item msg hthr _ hmem]
  · intro hfetch happr
    simp [statusHandler, hfetch, happr]

/-- Witness for `getDownloadLinks_total_and_status_ok`: with an
all-throwing catalog, the concrete approved payment still gets a 200
status response whose download-link list is empty. -/
theorem getDownloadLinks_total_and_status_ok_witness :
    getDownloadLinks pdEx (some sbOk) catThrow = [] ∧
    statusHandler
        (some ⟨fun _ => Except.error "unused", fun _ => Except.ok pdEx⟩)
        (some sbOk) catThrow =
      ⟨200, .ok 77 "approved" "accredited" 20 (some [])⟩ :=
  ⟨(getDownloadLinks_total_and_status_ok pdEx catThrow (some sbOk)
      ⟨fun _ => Except.error "unused", fun _ => Except.ok pdEx⟩).2.1 _ itemEx
      "db down" rfl (by decide) rfl,
   (getDownloadLinks_total_and_status_ok pdEx catThrow (some sbOk)
      ⟨fun _ => Except.error "unused", fun _ => Except.ok pdEx⟩).2.2 rfl rfl⟩

end Nectix
